import Mathlib

/-!
Verification development for the `gmail_analysis` repository.

The primary program is `gmail_poll.py` (the CLI poller with de-duplication,
rules override and dry-run support); `authenticate.py` is an earlier variant
of the same pipeline.  The definitions below are a shallow embedding of the
pure logic of `gmail_poll.py`: payload trees, body decoding, extraction,
classification, the category-to-action mapper, and the per-message polling
loop with its effects (digest entries, seen-set inserts, issued mutations,
logged failures).  External collaborators (the Gmail client, TextBlob, the
sqlite connection) are modelled as explicit data: a `Service` record of
oracles, and the seen table as a list of ids.
-/

deriving instance DecidableEq for Except

namespace GmailPoll

/-- ASCII lowercase mapping, applied characterwise: this models Python
`str.lower()` on the ASCII range (the only range the classifier keywords
live in). -/
def lowerChar (c : Char) : Char :=
  if 'A' ≤ c ∧ c ≤ 'Z' then Char.ofNat (c.toNat + 32) else c

/-- Python `text.lower()` as used by `classify`. -/
def lowerStr (s : String) : String :=
  String.mk (s.toList.map lowerChar)

/-- Substring test on lists of characters, mirroring the semantics of the
Python `needle in hay` operator (the empty needle is contained in every
string). -/
def hasSub (needle : List Char) : List Char → Bool
  | [] => needle.isEmpty
  | c :: t => List.isPrefixOf needle (c :: t) || hasSub needle t

/-- The test `strHas hay needle` is Python `needle in hay` on strings. -/
def strHas (hay needle : String) : Bool :=
  hasSub needle.toList hay.toList

/-! Base64 decoding (`_b64_to_str`, gmail_poll.py lines 81-82).

`base64.urlsafe_b64decode` translates `-`/`_` to `+`/`/` and then runs
CPython `binascii.a2b_base64` in non-strict mode: characters outside the
base64 alphabet are skipped, `=` padding that completes the current quad
ends decoding successfully, and a leftover quad position at the end of the
input raises `binascii.Error` (so malformed input such as `"a"` raises). -/

/-- Value of a standard base64 alphabet character, `none` for any other
character (which non-strict `a2b_base64` silently skips). -/
def b64Val (c : Char) : Option Nat :=
  if 'A' ≤ c ∧ c ≤ 'Z' then some (c.toNat - 65)
  else if 'a' ≤ c ∧ c ≤ 'z' then some (c.toNat - 97 + 26)
  else if '0' ≤ c ∧ c ≤ '9' then some (c.toNat - 48 + 52)
  else if c = '+' then some 62
  else if c = '/' then some 63
  else none

/-- CPython `binascii.a2b_base64` (non-strict mode), as a fold over the
input characters.  State: `quadPos` (position inside the current 4-char
group), `leftchar` (bits carried over), `pads` (consecutive padding seen),
`out` (decoded bytes, reversed). -/
def a2bBase64 : List Char → Nat → Nat → Nat → List Nat → Except String (List Nat)
  | [], quadPos, _, _, out =>
    if quadPos = 0 then .ok out.reverse
    else if quadPos = 1 then .error "Invalid base64-encoded string"
    else .error "Incorrect padding"
  | c :: rest, quadPos, leftchar, pads, out =>
    if c = '=' then
      if 2 ≤ quadPos then
        if 4 ≤ quadPos + (pads + 1) then .ok out.reverse
        else a2bBase64 rest quadPos leftchar (pads + 1) out
      else a2bBase64 rest quadPos leftchar pads out
    else
      match b64Val c with
      | none => a2bBase64 rest quadPos leftchar pads out
      | some v =>
        match quadPos with
        | 0 => a2bBase64 rest 1 v 0 out
        | 1 => a2bBase64 rest 2 (v % 16) 0 ((leftchar * 4 + v / 16) :: out)
        | 2 => a2bBase64 rest 3 (v % 4) 0 ((leftchar * 16 + v / 4) :: out)
        | _ => a2bBase64 rest 0 0 0 ((leftchar * 64 + v) :: out)

/-- Model of `base64.urlsafe_b64decode(data.encode())`: translate the URL-safe
alphabet to the standard one, then decode.  Errors model the
`binascii.Error` exceptions raised on malformed input. -/
def urlsafe_b64decode (s : String) : Except String (List Nat) :=
  a2bBase64 (s.toList.map (fun c => if c = '-' then '+' else if c = '_' then '/' else c)) 0 0 0 []

/-! UTF-8 decoding with `errors="ignore"`.

`bytes.decode("utf-8", errors="ignore")` drops the bytes of every invalid
sequence (maximal-subpart boundaries: on an invalid continuation byte the
partial sequence is dropped and decoding resumes at the offending byte).
It never raises.  Dropped bytes produce nothing; no replacement character
is inserted. -/

/-- In-flight state of a multi-byte UTF-8 sequence: continuation bytes
still `need`ed, accumulated code-point bits, and the admissible range
`lo`..`hi` for the next byte. -/
structure U8 where
  need : Nat
  acc : Nat
  lo : Nat
  hi : Nat

/-- Classify a byte in lead position: an ASCII character, the start of a
multi-byte sequence, or invalid (to be skipped). -/
def u8start (b : Nat) : Option U8 × Option Char :=
  if b < 0x80 then (none, some (Char.ofNat b))
  else if b < 0xC2 then (none, none)
  else if b < 0xE0 then (some ⟨1, b - 0xC0, 0x80, 0xBF⟩, none)
  else if b = 0xE0 then (some ⟨2, 0, 0xA0, 0xBF⟩, none)
  else if b = 0xED then (some ⟨2, 0xD, 0x80, 0x9F⟩, none)
  else if b < 0xF0 then (some ⟨2, b - 0xE0, 0x80, 0xBF⟩, none)
  else if b = 0xF0 then (some ⟨3, 0, 0x90, 0xBF⟩, none)
  else if b = 0xF4 then (some ⟨3, 4, 0x80, 0x8F⟩, none)
  else if b < 0xF5 then (some ⟨3, b - 0xF0, 0x80, 0xBF⟩, none)
  else (none, none)

/-- Decoding loop: one byte consumed per step. -/
def u8go : Option U8 → List Nat → List Char
  | _, [] => []
  | none, b :: rest =>
    match u8start b with
    | (none, some c) => c :: u8go none rest
    | (none, none) => u8go none rest
    | (some st, _) => u8go (some st) rest
  | some st, b :: rest =>
    if st.lo ≤ b ∧ b ≤ st.hi then
      if st.need = 1 then Char.ofNat (st.acc * 64 + (b - 0x80)) :: u8go none rest
      else u8go (some ⟨st.need - 1, st.acc * 64 + (b - 0x80), 0x80, 0xBF⟩) rest
    else
      match u8start b with
      | (none, some c) => c :: u8go none rest
      | (none, none) => u8go none rest
      | (some st2, _) => u8go (some st2) rest

/-- Model of `bytes.decode("utf-8", errors="ignore")`: total, never raises. -/
def utf8Ignore (bs : List Nat) : List Char :=
  u8go none bs

/-- Model of `_b64_to_str` (gmail_poll.py lines 81-82): URL-safe base64 decode, then
UTF-8 decode ignoring invalid byte sequences.  The base64 phase can raise
(`binascii.Error` on malformed input); the UTF-8 phase cannot. -/
def b64_to_str (data : String) : Except String String :=
  (urlsafe_b64decode data).map (fun bs => String.mk (utf8Ignore bs))

/-! HTML stripping (`_strip_html`, gmail_poll.py lines 85-86). -/

/-- State machine for `re.sub("<[^>]+>", "", htm)`: delete every span that
starts with `<`, has at least one non-`>` character, and ends at the next
`>`.  A `<` immediately followed by `>` or with no closing `>` is kept.
`buf` holds the (reversed) characters seen since an open `<`; if the input
ends while a `<` is pending, no match was possible there (no `>` remains),
so the pending text is emitted verbatim. -/
def stripTagsGo : Option (List Char) → List Char → List Char
  | none, [] => []
  | some buf, [] => '<' :: buf.reverse
  | none, c :: rest =>
    if c = '<' then stripTagsGo (some []) rest
    else c :: stripTagsGo none rest
  | some buf, c :: rest =>
    if c = '>' then
      if buf.isEmpty then '<' :: '>' :: stripTagsGo none rest
      else stripTagsGo none rest
    else stripTagsGo (some (c :: buf)) rest

/-- Model of `re.sub("<[^>]+>", "", htm)`. -/
def stripTags (cs : List Char) : List Char :=
  stripTagsGo none cs

/-- Model of `html.unescape` on the entity subset relevant to this repository:
replace `&name;` references by their characters, leave everything else
untouched.  The full HTML5 entity table is external library behaviour. -/
def htmlUnescape : List Char → List Char
  | [] => []
  | '&' :: 'a' :: 'm' :: 'p' :: ';' :: rest => '&' :: htmlUnescape rest
  | '&' :: 'l' :: 't' :: ';' :: rest => '<' :: htmlUnescape rest
  | '&' :: 'g' :: 't' :: ';' :: rest => '>' :: htmlUnescape rest
  | '&' :: 'q' :: 'u' :: 'o' :: 't' :: ';' :: rest => '"' :: htmlUnescape rest
  | '&' :: 'a' :: 'p' :: 'o' :: 's' :: ';' :: rest => '\'' :: htmlUnescape rest
  | '&' :: 'n' :: 'b' :: 's' :: 'p' :: ';' :: rest => Char.ofNat 160 :: htmlUnescape rest
  | c :: rest => c :: htmlUnescape rest

/-- Model of `_strip_html` (gmail_poll.py lines 85-86):
`html.unescape(re.sub("<[^>]+>", "", htm))`. -/
def strip_html (s : String) : String :=
  String.mk (htmlUnescape (stripTags s.toList))

/-! Message payloads and body extraction
(`plain_text_from_msg`, gmail_poll.py lines 89-105) -/

mutual
/-- A Gmail payload node: `mimeType` (absent keys are `none`), the optional
`body.data` blob, the `parts` children (absent = `PList.nil`), and the
`headers` name/value pairs. -/
inductive Payload where
  | mk : Option String → Option String → PList → List (String × String) → Payload
/-- A list of sibling payload nodes (a mutual inductive so that all
recursions stay structural and kernel-computable). -/
inductive PList where
  | nil : PList
  | cons : Payload → PList → PList
end

def Payload.mimeType : Payload → Option String
  | .mk m _ _ _ => m

def Payload.bodyData : Payload → Option String
  | .mk _ d _ _ => d

def Payload.parts : Payload → PList
  | .mk _ _ ps _ => ps

def Payload.headers : Payload → List (String × String)
  | .mk _ _ _ hs => hs

/-- Queue concatenation, as in `stack.extend(part.get("parts", []))`. -/
def PList.append : PList → PList → PList
  | .nil, b => b
  | .cons p ps, b => .cons p (ps.append b)

mutual
/-- Number of nodes in a payload tree. -/
def psize : Payload → Nat
  | .mk _ _ ps _ => 1 + plSize ps
/-- Total number of nodes in a queue of payload trees. -/
def plSize : PList → Nat
  | .nil => 0
  | .cons p ps => psize p + plSize ps
end

theorem psize_eq (p : Payload) : psize p = 1 + plSize p.parts := by
  cases p
  rfl

theorem plSize_append : (a b : PList) → plSize (a.append b) = plSize a + plSize b
  | .nil, b => by simp [PList.append, plSize]
  | .cons p ps, b => by
    simp [PList.append, plSize, plSize_append ps b]
    omega

/-- Python truthiness of `part.get("body", {}).get("data")`: present and
non-empty. -/
def hasData (p : Payload) : Bool :=
  match p.bodyData with
  | some d => decide (d ≠ "")
  | none => false

/-- Body of the queue scan for a data-carrying part (gmail_poll.py lines
99-103): decode, return as-is for `text/plain`, HTML-strip for every other
MIME type (including an absent one). -/
def renderPart (p : Payload) : Except String String :=
  match p.bodyData with
  | some d => (b64_to_str d).map (fun s => if p.mimeType = some "text/plain" then s else strip_html s)
  | none => .ok ""

/-- Fuel-indexed version of the FIFO-queue scan; `scanParts` supplies
enough fuel for the recursion (each step consumes one node of the total). -/
def scanFuel : Nat → PList → Except String String
  | _, .nil => .ok ""
  | 0, .cons _ _ => .ok ""
  | fuel + 1, .cons p rest =>
    if hasData p then renderPart p
    else scanFuel fuel (rest.append p.parts)

/-- The FIFO-queue scan over `parts` (gmail_poll.py lines 95-105): pop the
front, return its rendered body if it carries data, otherwise enqueue its
children at the back and continue; empty queue yields `""`. -/
def scanParts (q : PList) : Except String String :=
  scanFuel (plSize q) q

/-- Fuel-indexed visit order of the queue scan. -/
def bfsFuel : Nat → PList → List Payload
  | _, .nil => []
  | 0, .cons _ _ => []
  | fuel + 1, .cons p rest => p :: bfsFuel fuel (rest.append p.parts)

/-- The order in which the queue scan visits nodes: the front node first,
then the rest of the queue with the front node's children appended. -/
def bfsOrder (q : PList) : List Payload :=
  bfsFuel (plSize q) q

/-- Model of `plain_text_from_msg` (gmail_poll.py lines 89-105).  If the root
carries (truthy) body data it is decoded and returned — as-is for
`text/plain`, HTML-stripped for any other MIME type; a missing root
`mimeType` key raises `KeyError`.  Otherwise the queue scan over `parts`
runs. -/
def plain_text_from_msg (p : Payload) : Except String String :=
  match p.bodyData with
  | some d =>
    if d = "" then scanParts p.parts
    else
      match b64_to_str d with
      | .error e => .error e
      | .ok s =>
        match p.mimeType with
        | some m => if m = "text/plain" then .ok s else .ok (strip_html s)
        | none => .error "KeyError: mimeType"
  | none => scanParts p.parts

/-! Classifier (`classify`, gmail_poll.py lines 108-115).

TextBlob's sentiment polarity is an external scoring function; it is
modelled as an oracle `pol : String → Rat` passed explicitly.  The float
threshold `0.4` is modelled as the rational `mkRat 2 5`.  `str.lower()` is
modelled by `lowerStr` (ASCII case mapping, which covers every keyword the
classifier tests). -/

/-- Model of `classify` (gmail_poll.py lines 108-115). -/
def classify (pol : String → Rat) (text : String) : String :=
  let polarity := pol text
  let low := lowerStr text
  if strHas low "invoice" || strHas low "payment due" || strHas low "monthly statement" then
    "necessary"
  else if decide (mkRat 2 5 < polarity) || strHas low "thank you" then
    "important"
  else
    "neither"

/-! Category-to-action mapper (`act`, gmail_poll.py lines 118-132). -/

/-- A mailbox mutation request: `messages().modify` with `addLabelIds`, or
`messages().trash`. -/
inductive GAction where
  | modify (addLabelIds : List String)
  | trash
deriving DecidableEq

/-- Python truthiness of an optional string (`None` and `""` are falsy). -/
def optTruthy : Option String → Bool
  | none => false
  | some s => decide (s ≠ "")

/-- Model of `act` (gmail_poll.py lines 118-132), as the mutation request it issues:
`necessary` with a truthy `review_id` stars and labels; `important` stars;
everything else — including `necessary` without a configured review id —
is trashed. -/
def act (category : String) (reviewId : Option String) : GAction :=
  if category = "necessary" && optTruthy reviewId then
    GAction.modify ["STARRED", reviewId.getD ""]
  else if category = "important" then
    GAction.modify ["STARRED"]
  else
    GAction.trash

/-! Rules override and the polling pass
(`poll_once`, gmail_poll.py lines 138-184) -/

/-- The rules document: `whitelist` / `blacklist` substring lists (absent
keys default to `[]` via `rules.get`). -/
structure Rules where
  whitelist : List String
  blacklist : List String

/-- The rules override applied to a baseline category (gmail_poll.py lines
153-158): a whitelist hit on the sender forces `important`, otherwise a
blacklist hit forces `neither`, otherwise the baseline stands. -/
def overrideCat (r : Rules) (sender : String) (cat : String) : String :=
  if r.whitelist.any (fun w => strHas sender w) then "important"
  else if r.blacklist.any (fun b => strHas sender b) then "neither"
  else cat

/-- Model of `next((h.value for h in headers if h.name = name), dflt)`: value of the
first header with the given name. -/
def headerValue (hs : List (String × String)) (name dflt : String) : String :=
  match hs.find? (fun h => h.1 = name) with
  | some h => h.2
  | none => dflt

/-- The external collaborators of a polling pass: the unread-message list,
the per-id fetch (which may raise), whether a mutation call for an id
succeeds, and the TextBlob polarity oracle. -/
structure Service where
  unreadIds : List String
  fetch : String → Except String Payload
  mutateOk : String → Bool
  pol : String → Rat

/-- One entry of the digest returned by `poll_once`. -/
structure DigestEntry where
  id : String
  category : String
  subject : String
  sender : String
deriving DecidableEq

/-- Effects of processing a single message id: the digest entry appended
(if any), whether an `INSERT INTO seen` was executed, the mutation request
issued to the service (if any — recorded even when the call then fails),
and whether the per-message handler logged an exception. -/
structure StepRes where
  entry : Option DigestEntry
  inserted : Bool
  mutation : Option GAction
  logged : Bool
deriving DecidableEq

/-- One iteration of the `poll_once` loop body (gmail_poll.py lines
142-182) for message id `mid`, against the `seen` snapshot read at the
start of the pass.  Any exception (fetch, extraction, mutation) is caught
at this boundary and logged; `rules = none` models a falsy `rules`
argument (`None` or `{}`). -/
def processOne (svc : Service) (rules : Option Rules) (reviewId : Option String)
    (dryRun : Bool) (seen : List String) (mid : String) : StepRes :=
  match svc.fetch mid with
  | .error _ => ⟨none, false, none, true⟩
  | .ok msg =>
    match plain_text_from_msg msg with
    | .error _ => ⟨none, false, none, true⟩
    | .ok body =>
      let cat0 := classify svc.pol body
      if mid ∈ seen then ⟨none, false, none, false⟩
      else
        let sender := match rules with
          | some _ => headerValue msg.headers "From" ""
          | none => "unknown"
        let cat := match rules with
          | some r => overrideCat r sender cat0
          | none => cat0
        let subject := headerValue msg.headers "Subject" "No Subject"
        if dryRun then
          ⟨some ⟨mid, cat, subject, sender⟩, true, none, false⟩
        else if svc.mutateOk mid then
          ⟨some ⟨mid, cat, subject, sender⟩, true, some (act cat reviewId), false⟩
        else
          ⟨none, false, some (act cat reviewId), true⟩

/-- Accumulated effects of a polling pass, in processing order. -/
structure PassResult where
  digest : List DigestEntry
  inserts : List String
  mutations : List (String × GAction)
  logs : List String
deriving DecidableEq

/-- Effects contributed by one message id. -/
def stepRes (mid : String) (r : StepRes) : PassResult :=
  ⟨r.entry.toList,
   if r.inserted then [mid] else [],
   (r.mutation.map (fun a => (mid, a))).toList,
   if r.logged then [mid] else []⟩

def appendRes (a b : PassResult) : PassResult :=
  ⟨a.digest ++ b.digest, a.inserts ++ b.inserts,
   a.mutations ++ b.mutations, a.logs ++ b.logs⟩

/-- The `for mid in unread_message_ids(service)` loop of `poll_once`: the
`seen` snapshot is the one `SELECT`ed before the loop and is not re-read
within the pass. -/
def poll_loop (svc : Service) (rules : Option Rules) (reviewId : Option String)
    (dryRun : Bool) (seen : List String) : List String → PassResult
  | [] => ⟨[], [], [], []⟩
  | mid :: rest =>
    appendRes (stepRes mid (processOne svc rules reviewId dryRun seen mid))
      (poll_loop svc rules reviewId dryRun seen rest)

/-- Model of `poll_once` (gmail_poll.py lines 138-184).  The connection is read
(`conn.execute("SELECT id FROM seen")`) before any message is touched, so
`conn = None` raises `AttributeError` immediately; otherwise the pass runs
over the service's unread ids against the selected snapshot. -/
def poll_once (svc : Service) (rules : Option Rules) (reviewId : Option String)
    (dryRun : Bool) (conn : Option (List String)) : Except String PassResult :=
  match conn with
  | none => .error "AttributeError: NoneType has no attribute execute"
  | some seen => .ok (poll_loop svc rules reviewId dryRun seen svc.unreadIds)

/-- Model of `run_daemon` (gmail_poll.py lines 187-192), indexed by the number of
sweeps the time-bounded loop performs.  An exception raised by a pass
propagates and ends the daemon. -/
def run_daemon (svc : Service) (rules : Option Rules) (reviewId : Option String)
    (dryRun : Bool) (conn : Option (List String)) : Nat → Except String (List PassResult)
  | 0 => .ok []
  | n + 1 =>
    match poll_once svc rules reviewId dryRun conn with
    | .error e => .error e
    | .ok r => (run_daemon svc rules reviewId dryRun conn n).map (r :: ·)

/-- The CLI `--daemon` invocation (gmail_poll.py line 268): `run_daemon` is
called without a `conn` argument, so the signature default `conn=None`
applies. -/
def cli_daemon (svc : Service) (rules : Option Rules) (reviewId : Option String)
    (dryRun : Bool) (sweeps : Nat) : Except String (List PassResult) :=
  run_daemon svc rules reviewId dryRun none sweeps

/-- A message id is successfully processed in a pass when its fetch and
extraction succeed and it is not in the `seen` snapshot. -/
def processedOk (svc : Service) (seen : List String) (mid : String) : Bool :=
  match svc.fetch mid with
  | .error _ => false
  | .ok msg =>
    match plain_text_from_msg msg with
    | .error _ => false
    | .ok _ => decide (mid ∉ seen)

/-! Auxiliary lemmas for the queue scan. -/

theorem psize_pos (p : Payload) : 1 ≤ psize p := by
  cases p
  simp [psize]

theorem plSize_cons (p : Payload) (rest : PList) :
    plSize (.cons p rest) = 1 + plSize p.parts + plSize rest := by
  simp [plSize, psize_eq p]

theorem scanFuel_eq : ∀ (f g : Nat) (q : PList), plSize q ≤ f → plSize q ≤ g →
    scanFuel f q = scanFuel g q
  | f, g, .nil, _, _ => by cases f <;> cases g <;> simp [scanFuel]
  | 0, g, .cons p rest, hf, _ => by
    rw [plSize_cons] at hf
    omega
  | _ + 1, 0, .cons p rest, _, hg => by
    rw [plSize_cons] at hg
    omega
  | f + 1, g + 1, .cons p rest, hf, hg => by
    simp only [scanFuel]
    by_cases h : hasData p
    · simp [h]
    · simp only [h, Bool.false_eq_true, if_false]
      apply scanFuel_eq f g
      · rw [plSize_append]
        rw [plSize_cons] at hf
        omega
      · rw [plSize_append]
        rw [plSize_cons] at hg
        omega

theorem scanParts_cons (p : Payload) (rest : PList) :
    scanParts (.cons p rest) =
      if hasData p then renderPart p else scanParts (rest.append p.parts) := by
  have hs : plSize (PList.cons p rest) = (plSize p.parts + plSize rest) + 1 := by
    rw [plSize_cons]
    omega
  rw [scanParts, hs]
  simp only [scanFuel]
  by_cases h : hasData p
  · simp [h]
  · simp only [h, Bool.false_eq_true, if_false]
    rw [scanParts]
    apply scanFuel_eq
    · rw [plSize_append]
      omega
    · exact le_rfl

theorem bfsFuel_eq : ∀ (f g : Nat) (q : PList), plSize q ≤ f → plSize q ≤ g →
    bfsFuel f q = bfsFuel g q
  | f, g, .nil, _, _ => by cases f <;> cases g <;> simp [bfsFuel]
  | 0, g, .cons p rest, hf, _ => by
    rw [plSize_cons] at hf
    omega
  | _ + 1, 0, .cons p rest, _, hg => by
    rw [plSize_cons] at hg
    omega
  | f + 1, g + 1, .cons p rest, hf, hg => by
    simp only [bfsFuel, List.cons.injEq, true_and]
    apply bfsFuel_eq f g
    · rw [plSize_append]
      rw [plSize_cons] at hf
      omega
    · rw [plSize_append]
      rw [plSize_cons] at hg
      omega

theorem bfsOrder_cons (p : Payload) (rest : PList) :
    bfsOrder (.cons p rest) = p :: bfsOrder (rest.append p.parts) := by
  have hs : plSize (PList.cons p rest) = (plSize p.parts + plSize rest) + 1 := by
    rw [plSize_cons]
    omega
  rw [bfsOrder, hs]
  simp only [bfsFuel, List.cons.injEq, true_and]
  rw [bfsOrder]
  apply bfsFuel_eq
  · rw [plSize_append]
    omega
  · exact le_rfl

theorem scanParts_eq_first_aux : ∀ (n : Nat) (q : PList), plSize q ≤ n →
    scanParts q = ((bfsOrder q).find? hasData).elim (Except.ok "") renderPart := by
  intro n
  induction n with
  | zero =>
    intro q hq
    cases q with
    | nil => simp [scanParts, scanFuel, bfsOrder, bfsFuel, plSize, Option.elim]
    | cons p rest =>
      rw [plSize_cons] at hq
      omega
  | succ n ih =>
    intro q hq
    cases q with
    | nil => simp [scanParts, scanFuel, bfsOrder, bfsFuel, plSize, Option.elim]
    | cons p rest =>
      rw [scanParts_cons, bfsOrder_cons]
      by_cases h : hasData p
      · simp [h, List.find?, Option.elim]
      · simp only [h, Bool.false_eq_true, if_false, List.find?]
        apply ih
        rw [plSize_append]
        rw [plSize_cons] at hq
        omega

/-! Claim theorems. -/

/-- Claim C1 (code-bug evidence).  The claim states that a `necessary`
message is never trashed: with a configured review label the mutation adds
the starred marker and the label, and without one it adds only the starred
marker.  Evaluating `act` (gmail_poll.py lines 118-132) shows the
configured case behaves as claimed, but with `review_id = None` (and with
the falsy `review_id = ""`) a `necessary` message falls into the `else`
branch and is trashed — contradicting the claim and the code's own warning
that unset review labels are merely "skipped". -/
theorem act_necessary_without_review_label_trashes :
    act "necessary" none = GAction.trash ∧
    act "necessary" (some "") = GAction.trash ∧
    act "necessary" (some "Label_7") = GAction.modify ["STARRED", "Label_7"] ∧
    act "important" none = GAction.modify ["STARRED"] := by
  decide

/-- A root payload carrying data with a MIME type that is neither
`text/plain` nor `text/html`, with a `text/plain` part underneath. -/
def cexRoot : Payload :=
  .mk (some "application/pdf") (some "aGVsbG8=")
    (.cons (.mk (some "text/plain") (some "d29ybGQ=") .nil []) .nil) []

/-- Claim C2 counterexample.  The claim states that a root payload whose
MIME type is neither `text/plain` nor `text/html` is not returned but
falls through to the `parts` scan.  On `cexRoot` (root MIME
`application/pdf`, root data decoding to `"hello"`, parts scan yielding
`"world"`), `plain_text_from_msg` returns the decoded root body
`"hello"`, not the parts result. -/
theorem root_nonplain_data_returns_root_cex :
    cexRoot.mimeType = some "application/pdf" ∧
    cexRoot.bodyData = some "aGVsbG8=" ∧
    plain_text_from_msg cexRoot = .ok "hello" ∧
    scanParts cexRoot.parts = .ok "world" ∧
    plain_text_from_msg cexRoot ≠ scanParts cexRoot.parts := by
  decide

/-- Claim C2 amended.  In `plain_text_from_msg` (gmail_poll.py lines
89-93) a root payload carrying non-empty body data with any declared MIME
type other than `text/plain` — `text/html` and every other type alike —
returns the HTML-stripped decoded root body; it does not fall through to
the scan over `parts`. -/
theorem root_data_mime_dispatch (p : Payload) (d m : String)
    (hd : p.bodyData = some d) (hne : d ≠ "") (hm : p.mimeType = some m)
    (hmt : m ≠ "text/plain") :
    plain_text_from_msg p = (b64_to_str d).map strip_html := by
  rw [plain_text_from_msg, hd]
  simp only [hne, if_false]
  cases hb : b64_to_str d with
  | error e => simp [hb, Except.map]
  | ok s =>
    rw [hm]
    simp [hmt, hb, Except.map]

/-- Witness for C2's amended theorem at the counterexample payload. -/
theorem root_data_mime_dispatch_witness :
    plain_text_from_msg cexRoot = (b64_to_str "aGVsbG8=").map strip_html :=
  root_data_mime_dispatch cexRoot "aGVsbG8=" "application/pdf" rfl (by decide) rfl (by decide)

/-- Claim C3.  During the FIFO-queue scan over `parts` (gmail_poll.py
lines 95-105): the scan result is determined by the first data-carrying
part in queue order (`bfsOrder`); a data-carrying part at the front
returns immediately; and for a data-carrying part of ANY MIME type other
than `text/plain` (non-text types are not skipped) the returned value is
the HTML-stripped decoded data. -/
theorem scan_first_data_part (q : PList) (p : Payload) (rest : PList)
    (h : hasData p = true) :
    scanParts q = ((bfsOrder q).find? hasData).elim (Except.ok "") renderPart ∧
    scanParts (.cons p rest) = renderPart p ∧
    (∀ d, p.bodyData = some d → p.mimeType ≠ some "text/plain" →
      scanParts (.cons p rest) = (b64_to_str d).map strip_html) := by
  refine ⟨scanParts_eq_first_aux (plSize q) q le_rfl, ?_, ?_⟩
  · rw [scanParts_cons]
    simp [h]
  · intro d hd hm
    rw [scanParts_cons]
    simp only [h, if_true]
    rw [renderPart, hd]
    cases hb : b64_to_str d with
    | error e => simp [hb, Except.map]
    | ok s => simp [hm, hb, Except.map]

/-- A calendar part accidentally carrying body data. -/
def pIcs : Payload := .mk (some "text/calendar") (some "aGVsbG8=") .nil []

/-- Witness for C3: the non-text `text/calendar` part is not skipped — its
data is returned HTML-stripped. -/
theorem scan_first_data_part_witness :
    hasData pIcs = true ∧
    scanParts (.cons pIcs .nil) = (b64_to_str "aGVsbG8=").map strip_html :=
  ⟨by decide,
   (scan_first_data_part (.cons pIcs .nil) pIcs .nil (by decide)).2.2 "aGVsbG8=" rfl (by decide)⟩

/-- Claim C4 counterexample.  The claim states body decoding never raises
and malformed base64 degrades to empty text.  On the input `"a"` (one data
character, which is one more than a multiple of four) `_b64_to_str` raises
`binascii.Error` instead of returning text. -/
theorem b64_malformed_raises_cex :
    b64_to_str "a" = .error "Invalid base64-encoded string" := by
  decide

/-- Claim C4 amended.  Once the base64 phase succeeds, the UTF-8 phase
never raises: invalid byte sequences are silently dropped
(`errors="ignore"`), not replaced, so `_b64_to_str` returns text for every
well-formed base64 input (`"_w=="` decodes to the invalid byte `0xFF` and
yields `""`); but malformed base64 raises a `binascii.Error` out of the
decoding step, which only the per-message handler catches. -/
theorem b64_decode_error_behavior :
    (∀ s bs, urlsafe_b64decode s = .ok bs →
      b64_to_str s = .ok (String.mk (utf8Ignore bs))) ∧
    (∀ s e, urlsafe_b64decode s = .error e → b64_to_str s = .error e) ∧
    b64_to_str "aGVsbG8=" = .ok "hello" ∧
    b64_to_str "_w==" = .ok "" ∧
    String.mk (utf8Ignore [255, 104]) = "h" := by
  refine ⟨?_, ?_, by decide, by decide, by decide⟩
  · intro s bs h
    rw [b64_to_str, h]
    simp [Except.map]
  · intro s e h
    rw [b64_to_str, h]
    simp [Except.map]

/-- Witness for C4's amended theorem at a concrete well-formed input. -/
theorem b64_decode_error_behavior_witness :
    urlsafe_b64decode "aGVsbG8=" = .ok [104, 101, 108, 108, 111] ∧
    b64_to_str "aGVsbG8=" = .ok (String.mk (utf8Ignore [104, 101, 108, 108, 111])) :=
  ⟨by decide, b64_decode_error_behavior.1 "aGVsbG8=" [104, 101, 108, 108, 111] (by decide)⟩

/-- Claim C5.  `classify` (gmail_poll.py lines 108-115) returns
`necessary` exactly when the lowercased text contains `"invoice"`,
`"payment due"` or `"monthly statement"` (the keyword result overrides the
polarity test); otherwise `important` exactly when the polarity strictly
exceeds the threshold 0.4 or the lowercased text contains `"thank you"`;
otherwise `neither`. -/
theorem classify_category_iff (pol : String → Rat) (text : String) :
    (classify pol text = "necessary" ↔
      (strHas (lowerStr text) "invoice" = true ∨
        strHas (lowerStr text) "payment due" = true ∨
        strHas (lowerStr text) "monthly statement" = true)) ∧
    (classify pol text = "important" ↔
      (¬(strHas (lowerStr text) "invoice" = true ∨
          strHas (lowerStr text) "payment due" = true ∨
          strHas (lowerStr text) "monthly statement" = true) ∧
        (mkRat 2 5 < pol text ∨ strHas (lowerStr text) "thank you" = true))) ∧
    (classify pol text = "neither" ↔
      (¬(strHas (lowerStr text) "invoice" = true ∨
          strHas (lowerStr text) "payment due" = true ∨
          strHas (lowerStr text) "monthly statement" = true) ∧
        ¬(mkRat 2 5 < pol text ∨ strHas (lowerStr text) "thank you" = true))) := by
  have hne1 : ("necessary" : String) ≠ "important" := by decide
  have hne2 : ("necessary" : String) ≠ "neither" := by decide
  have hne3 : ("important" : String) ≠ "neither" := by decide
  have hne4 : ("important" : String) ≠ "necessary" := by decide
  have hne5 : ("neither" : String) ≠ "necessary" := by decide
  have hne6 : ("neither" : String) ≠ "important" := by decide
  simp only [classify]
  by_cases h1 : (strHas (lowerStr text) "invoice" || strHas (lowerStr text) "payment due" ||
      strHas (lowerStr text) "monthly statement") = true
  · have h1p := h1
    simp only [Bool.or_eq_true] at h1p
    simp [h1, hne1, hne2, or_assoc.symm, h1p]
  · have h1p := h1
    simp only [Bool.or_eq_true, not_or] at h1p
    by_cases h2 : (decide (mkRat 2 5 < pol text) || strHas (lowerStr text) "thank you") = true
    · have h2p := h2
      simp only [Bool.or_eq_true, decide_eq_true_eq] at h2p
      simp [h1, h2, hne4, hne6, h1p, h2p]
    · have h2p := h2
      simp only [Bool.or_eq_true, decide_eq_true_eq, not_or] at h2p
      simp only [h1, Bool.false_eq_true, if_false, h2, Bool.false_eq_true, if_false]
      constructor
      · simp [hne5, h1p]
      constructor
      · simp [hne6, h2p]
      · simp [h1p, h2p]

/-- Claim C6.  The rules override (gmail_poll.py lines 152-158), applied
only when `rules` is truthy, runs after the baseline and fully replaces
its result: a whitelist hit on the sender forces `important` regardless of
the baseline, otherwise a blacklist hit forces `neither`, otherwise the
baseline stands; inside the pass the override is applied to the `classify`
result and the overridden category is what reaches the digest. -/
theorem rules_override_replaces_baseline (r : Rules) (sender baseline : String) :
    (r.whitelist.any (fun w => strHas sender w) = true →
      overrideCat r sender baseline = "important") ∧
    (r.whitelist.any (fun w => strHas sender w) = false →
      r.blacklist.any (fun b => strHas sender b) = true →
      overrideCat r sender baseline = "neither") ∧
    (r.whitelist.any (fun w => strHas sender w) = false →
      r.blacklist.any (fun b => strHas sender b) = false →
      overrideCat r sender baseline = baseline) ∧
    (∀ (svc : Service) (rid : Option String) (seen : List String) (mid : String)
        (msg : Payload) (body : String),
      svc.fetch mid = .ok msg → plain_text_from_msg msg = .ok body → mid ∉ seen →
      (processOne svc (some r) rid true seen mid).entry =
        some ⟨mid,
              overrideCat r (headerValue msg.headers "From" "") (classify svc.pol body),
              headerValue msg.headers "Subject" "No Subject",
              headerValue msg.headers "From" ""⟩) := by
  refine ⟨?_, ?_, ?_, ?_⟩
  · intro hw
    simp [overrideCat, hw]
  · intro hw hb
    simp [overrideCat, hw, hb]
  · intro hw hb
    simp [overrideCat, hw, hb]
  · intro svc rid seen mid msg body hf hx hm
    simp [processOne, hf, hx, hm]

/-- Sample rules with a whitelist entry. -/
def rW : Rules := ⟨["alice"], ["spam.example"]⟩

/-- Witness for C6: a whitelisted sender forces `important` over the
baseline `neither`. -/
theorem rules_override_replaces_baseline_witness :
    rW.whitelist.any (fun w => strHas "alice@x" w) = true ∧
    overrideCat rW "alice@x" "neither" = "important" :=
  ⟨by decide, (rules_override_replaces_baseline rW "alice@x" "neither").1 (by decide)⟩

/-! Auxiliary lemmas for the polling pass. -/

theorem processOne_fetch_error (svc : Service) (rules : Option Rules) (rid : Option String)
    (dry : Bool) (seen : List String) (mid e : String) (h : svc.fetch mid = .error e) :
    processOne svc rules rid dry seen mid = ⟨none, false, none, true⟩ := by
  rw [processOne, h]

theorem processOne_mutation_none_of_seen (svc : Service) (rules : Option Rules)
    (rid : Option String) (dry : Bool) (seen : List String) (mid : String)
    (h : mid ∈ seen) :
    (processOne svc rules rid dry seen mid).mutation = none := by
  cases hf : svc.fetch mid with
  | error e => simp [processOne, hf]
  | ok msg =>
    cases hx : plain_text_from_msg msg with
    | error e => simp [processOne, hf, hx]
    | ok body => simp [processOne, hf, hx, h]

theorem processOne_dry_mutation_none (svc : Service) (rules : Option Rules)
    (rid : Option String) (seen : List String) (mid : String) :
    (processOne svc rules rid true seen mid).mutation = none := by
  cases hf : svc.fetch mid with
  | error e => simp [processOne, hf]
  | ok msg =>
    cases hx : plain_text_from_msg msg with
    | error e => simp [processOne, hf, hx]
    | ok body =>
      by_cases hm : mid ∈ seen
      · simp [processOne, hf, hx, hm]
      · simp [processOne, hf, hx, hm]

theorem processOne_dry_inserted (svc : Service) (rules : Option Rules)
    (rid : Option String) (seen : List String) (mid : String) :
    (processOne svc rules rid true seen mid).inserted = processedOk svc seen mid := by
  cases hf : svc.fetch mid with
  | error e => simp [processOne, processedOk, hf]
  | ok msg =>
    cases hx : plain_text_from_msg msg with
    | error e => simp [processOne, processedOk, hf, hx]
    | ok body =>
      by_cases hm : mid ∈ seen
      · simp [processOne, processedOk, hf, hx, hm]
      · simp [processOne, processedOk, hf, hx, hm]

theorem processOne_not_inserted_of_mutate_fail (svc : Service) (rules : Option Rules)
    (rid : Option String) (seen : List String) (mid : String)
    (h : svc.mutateOk mid = false) :
    (processOne svc rules rid false seen mid).inserted = false := by
  cases hf : svc.fetch mid with
  | error e => simp [processOne, hf]
  | ok msg =>
    cases hx : plain_text_from_msg msg with
    | error e => simp [processOne, hf, hx]
    | ok body =>
      by_cases hm : mid ∈ seen
      · simp [processOne, hf, hx, hm]
      · simp [processOne, hf, hx, hm, h]

theorem poll_loop_append (svc : Service) (rules : Option Rules) (rid : Option String)
    (dry : Bool) (seen : List String) (xs ys : List String) :
    poll_loop svc rules rid dry seen (xs ++ ys) =
      appendRes (poll_loop svc rules rid dry seen xs) (poll_loop svc rules rid dry seen ys) := by
  induction xs with
  | nil => simp [poll_loop, appendRes]
  | cons m rest ih => simp [poll_loop, appendRes, ih]

theorem mem_poll_loop_inserts (svc : Service) (rules : Option Rules) (rid : Option String)
    (dry : Bool) (seen : List String) (mids : List String) (mid : String) :
    mid ∈ (poll_loop svc rules rid dry seen mids).inserts ↔
      (mid ∈ mids ∧ (processOne svc rules rid dry seen mid).inserted = true) := by
  induction mids with
  | nil => simp [poll_loop]
  | cons m rest ih =>
    simp only [poll_loop, appendRes, stepRes, List.mem_append, List.mem_cons, ih]
    cases hi : (processOne svc rules rid dry seen m).inserted with
    | false =>
      by_cases hm : mid = m
      · subst hm
        simp [hi]
      · simp [hi, hm]
    | true =>
      by_cases hm : mid = m
      · subst hm
        simp [hi]
      · simp [hi, hm]

theorem mem_poll_loop_mutations (svc : Service) (rules : Option Rules) (rid : Option String)
    (dry : Bool) (seen : List String) (mids : List String) (mid : String) (a : GAction) :
    (mid, a) ∈ (poll_loop svc rules rid dry seen mids).mutations ↔
      (mid ∈ mids ∧ (processOne svc rules rid dry seen mid).mutation = some a) := by
  induction mids with
  | nil => simp [poll_loop]
  | cons m rest ih =>
    simp only [poll_loop, appendRes, stepRes, List.mem_append, List.mem_cons, ih]
    cases hi : (processOne svc rules rid dry seen m).mutation with
    | none =>
      by_cases hm : mid = m
      · subst hm
        simp [hi]
      · simp [hi, hm]
    | some v =>
      by_cases hm : mid = m
      · subst hm
        simp only [hi, Option.map, Option.toList, List.mem_singleton, List.not_mem_nil,
          Prod.mk.injEq, true_and, Option.some.injEq]
        tauto
      · simp [hi, hm]

theorem poll_loop_dry_mutations_nil (svc : Service) (rules : Option Rules)
    (rid : Option String) (seen : List String) (mids : List String) :
    (poll_loop svc rules rid true seen mids).mutations = [] := by
  induction mids with
  | nil => simp [poll_loop]
  | cons m rest ih =>
    simp [poll_loop, appendRes, stepRes, processOne_dry_mutation_none, ih, Option.map]

theorem poll_loop_dry_inserts (svc : Service) (rules : Option Rules)
    (rid : Option String) (seen : List String) (mids : List String) :
    (poll_loop svc rules rid true seen mids).inserts =
      mids.filter (fun m => processedOk svc seen m) := by
  induction mids with
  | nil => simp [poll_loop]
  | cons m rest ih =>
    simp only [poll_loop, appendRes, stepRes, processOne_dry_inserted, ih, List.filter]
    cases hp : processedOk svc seen m <;> simp

theorem no_mutation_for_seen_id (svc : Service) (rules : Option Rules) (rid : Option String)
    (dry : Bool) (seen : List String) (mids : List String) (mid : String) (a : GAction)
    (h : mid ∈ seen) :
    (mid, a) ∉ (poll_loop svc rules rid dry seen mids).mutations := by
  rw [mem_poll_loop_mutations]
  rw [processOne_mutation_none_of_seen svc rules rid dry seen mid h]
  simp

/-- Claim C7.  In a non-dry polling pass the `INSERT INTO seen` for a
message id is executed only after its mutation call has succeeded
(gmail_poll.py lines 167-178): if the mutation call raises, the id is not
added to the seen set. -/
theorem seen_insert_requires_successful_mutation (svc : Service) (rules : Option Rules)
    (rid : Option String) (seen : List String) (mids : List String) (mid : String)
    (h : svc.mutateOk mid = false) :
    mid ∉ (poll_loop svc rules rid false seen mids).inserts := by
  rw [mem_poll_loop_inserts]
  rw [processOne_not_inserted_of_mutate_fail svc rules rid seen mid h]
  simp

/-- Claim C8.  A failure while processing one message (here: a fetch
error) is caught and logged at the per-message boundary and contributes
nothing but its log entry; the effects of the messages before and after it
are exactly their standalone effects, so the rest of the batch is still
processed.  (The batch-splitting equation holds for every service,
including ones whose extraction or mutation for `m` fails.) -/
theorem per_message_failure_isolated (svc : Service) (rules : Option Rules)
    (rid : Option String) (dry : Bool) (seen : List String) (xs ys : List String)
    (m e : String) (h : svc.fetch m = .error e) :
    poll_loop svc rules rid dry seen (xs ++ m :: ys) =
      appendRes (poll_loop svc rules rid dry seen xs)
        (appendRes ⟨[], [], [], [m]⟩ (poll_loop svc rules rid dry seen ys)) ∧
    (processOne svc rules rid dry seen m).logged = true := by
  have hp := processOne_fetch_error svc rules rid dry seen m e h
  constructor
  · rw [poll_loop_append]
    simp [poll_loop, hp, stepRes]
  · rw [hp]

/-- Claim C9.  `poll_once` reads the de-duplication connection before the
message loop, so `conn = None` raises `AttributeError` before any message
is processed — for every service, whatever its unread list; the CLI
`--daemon` path calls `run_daemon` without a connection (defaulting
`conn=None`), so the daemon's first pass raises and no daemon sweep ever
processes a message. -/
theorem daemon_conn_none_fails (svc : Service) (rules : Option Rules) (rid : Option String)
    (dry : Bool) (n : Nat) :
    poll_once svc rules rid dry none =
      .error "AttributeError: NoneType has no attribute execute" ∧
    cli_daemon svc rules rid dry (n + 1) =
      .error "AttributeError: NoneType has no attribute execute" := by
  exact ⟨rfl, rfl⟩

/-- Claim C10.  A dry-run pass issues no mailbox mutation at all, yet
still inserts every successfully processed message id (fetch and
extraction succeeded, id not already seen) into the persistent seen set;
a later non-dry pass whose seen snapshot includes those inserts never
issues a mutation for any of them. -/
theorem dry_run_no_mutation_but_records_seen (svc svc2 : Service)
    (rules rules2 : Option Rules) (rid rid2 : Option String)
    (seen mids mids2 : List String) :
    (poll_loop svc rules rid true seen mids).mutations = [] ∧
    (poll_loop svc rules rid true seen mids).inserts =
      mids.filter (fun m => processedOk svc seen m) ∧
    (∀ mid ∈ (poll_loop svc rules rid true seen mids).inserts, ∀ a : GAction,
      (mid, a) ∉ (poll_loop svc2 rules2 rid2 false
        (seen ++ (poll_loop svc rules rid true seen mids).inserts) mids2).mutations) := by
  refine ⟨poll_loop_dry_mutations_nil svc rules rid seen mids,
    poll_loop_dry_inserts svc rules rid seen mids, ?_⟩
  intro mid hmid a
  apply no_mutation_for_seen_id
  exact List.mem_append.mpr (Or.inr hmid)

/-! Concrete sample data for the witnesses. -/

/-- A plain-text message whose body decodes to `"hello"`. -/
def msgA : Payload :=
  .mk (some "text/plain") (some "aGVsbG8=") .nil [("From", "alice@x"), ("Subject", "hi")]

/-- A service whose mutation calls always fail. -/
def svcMutFail : Service :=
  { unreadIds := ["m1"], fetch := fun _ => .ok msgA,
    mutateOk := fun _ => false, pol := fun _ => 0 }

/-- A service whose calls all succeed. -/
def svcGood : Service :=
  { unreadIds := ["m1"], fetch := fun _ => .ok msgA,
    mutateOk := fun _ => true, pol := fun _ => 0 }

/-- A service for which fetching the id `"bad"` raises. -/
def svcFetchFail : Service :=
  { unreadIds := ["a", "bad", "c"],
    fetch := fun mid => if mid = "bad" then .error "HTTPError 500" else .ok msgA,
    mutateOk := fun _ => true, pol := fun _ => 0 }

/-- Witness for C7: with a failing mutation, the processed id is not
recorded as seen. -/
theorem seen_insert_requires_successful_mutation_witness :
    svcMutFail.mutateOk "m1" = false ∧
    "m1" ∉ (poll_loop svcMutFail none none false [] ["m1"]).inserts :=
  ⟨rfl, seen_insert_requires_successful_mutation svcMutFail none none [] ["m1"] "m1" rfl⟩

/-- Witness for C8 at a concrete batch with a failing middle message. -/
theorem per_message_failure_isolated_witness :
    svcFetchFail.fetch "bad" = .error "HTTPError 500" ∧
    poll_loop svcFetchFail none none false [] (["a"] ++ "bad" :: ["c"]) =
      appendRes (poll_loop svcFetchFail none none false [] ["a"])
        (appendRes ⟨[], [], [], ["bad"]⟩ (poll_loop svcFetchFail none none false [] ["c"])) :=
  ⟨rfl,
   (per_message_failure_isolated svcFetchFail none none false [] ["a"] ["c"]
      "bad" "HTTPError 500" rfl).1⟩

/-- Witness for C10: the id recorded during the dry run is never mutated
by the following non-dry pass. -/
theorem dry_run_no_mutation_but_records_seen_witness :
    "m1" ∈ (poll_loop svcGood none none true [] ["m1"]).inserts ∧
    ("m1", GAction.trash) ∉ (poll_loop svcGood none none false
      ([] ++ (poll_loop svcGood none none true [] ["m1"]).inserts) ["m1"]).mutations :=
  ⟨by decide,
   (dry_run_no_mutation_but_records_seen svcGood svcGood none none none none
      [] ["m1"] ["m1"]).2.2 "m1" (by decide) GAction.trash⟩

end GmailPoll
